import Mathlib

/-!
Shallow embedding of the solar simulation engine of the repository
(`src/modules/solarCalculator.js`, the hemisphere-aware `SolarCalculator`
class, which the design notes designate as the single canonical engine).
JS numbers are modelled as real numbers; `Math.sin`, `Math.cos`, `Math.asin`,
`Math.acos`, `Math.exp` and `Math.pow` become `Real.sin`, `Real.cos`,
`Real.arcsin`, `Real.arccos`, `Real.exp` and `Real.rpow`; JS `null` fields
become `Option`; a JS `throw` becomes an `Option.none` result.
-/

namespace SolarCalc

open Real

noncomputable section

open scoped Classical

/-- JS `Math.round`: round half away from zero toward positive infinity,
`Math.round x = ⌊x + 0.5⌋`. -/
def jsRound (x : ℝ) : ℝ := (⌊x + 1/2⌋ : ℤ)

/-- Truncation toward zero, as JS number-to-integer conversion uses. -/
def jsTrunc (x : ℝ) : ℝ := if 0 ≤ x then (⌊x⌋ : ℤ) else (⌈x⌉ : ℤ)

/-- JS `%` on numbers: remainder with the sign of the dividend,
`x % y = x - y * trunc (x / y)`. -/
def jsFmod (x y : ℝ) : ℝ := x - y * jsTrunc (x / y)

/-- Return value of `calculateSolarPosition`. -/
structure SolarPosition where
  elevation : ℝ
  azimuth : ℝ
  hourAngle : ℝ

/-- `calculateSolarPosition(hour, dayOfYear, latitude)` (lines 751-784):
solar declination, hour angle, elevation (clamped to ≥ 0 on return) and
azimuth (mirrored for afternoon hours). -/
def calculateSolarPosition (hour dayOfYear latitude : ℝ) : SolarPosition :=
  let solarHour := hour - 12
  let declination := 23.45 * sin ((360 * (284 + dayOfYear) / 365) * π / 180)
  let hourAngle := 15 * solarHour
  let latRad := latitude * π / 180
  let declRad := declination * π / 180
  let hourRad := hourAngle * π / 180
  let sinElevation := sin latRad * sin declRad + cos latRad * cos declRad * cos hourRad
  let elevation := arcsin sinElevation * 180 / π
  let cosAzimuth := (sin declRad * cos latRad - cos declRad * sin latRad * cos hourRad) /
      cos (elevation * π / 180)
  let azimuth0 := arccos (max (-1) (min 1 cosAzimuth)) * 180 / π
  let azimuth := if 0 < hourAngle then 360 - azimuth0 else azimuth0
  { elevation := max 0 elevation
    azimuth := azimuth
    hourAngle := hourAngle }

/-- The pre-normalization horizontal irradiance of
`calculateAtmosphericAttenuation` (lines 789-805): Kasten-Young air mass,
direct normal irradiance `900·exp(-0.357·airMass^0.678)` and diffuse
irradiance `100·sin(elev)`, combined on a horizontal surface. -/
def atmosphericTotalIrradiance (elevation : ℝ) : ℝ :=
  let elevationRad := elevation * π / 180
  let airMass := 1 / (sin elevationRad + 0.50572 * (elevation + 6.07995) ^ (-1.6364 : ℝ))
  let directNormalIrradiance := 900 * exp (-0.357 * airMass ^ (0.678 : ℝ))
  let diffuseIrradiance := 100 * sin elevationRad
  directNormalIrradiance * sin elevationRad + diffuseIrradiance

/-- `calculateAtmosphericAttenuation(elevation)`: 0 at or below the horizon,
otherwise the horizontal irradiance normalized by 1000 W/m² and
floor-clamped at 0. -/
def calculateAtmosphericAttenuation (elevation : ℝ) : ℝ :=
  if elevation ≤ 0 then 0
  else max 0 (atmosphericTotalIrradiance elevation / 1000)

/-- Return value of `getLocationInfo` (lines 1208-1233). -/
structure LocationInfo where
  isNorthernHemisphere : Prop
  isSouthernHemisphere : Prop
  optimalAzimuth : ℝ
  optimalTilt : ℝ
  seasonalShift : ℝ
  absLatitude : ℝ

/-- `getLocationInfo(latitude, longitude)`: hemisphere test, optimal azimuth
(south for the northern hemisphere, north for the southern), optimal tilt
`clamp(|latitude|, 10, 60)`. -/
def getLocationInfo (latitude : ℝ) (_longitude : ℝ) : LocationInfo :=
  { isNorthernHemisphere := 0 ≤ latitude
    isSouthernHemisphere := latitude < 0
    optimalAzimuth := if 0 ≤ latitude then 180 else 0
    optimalTilt := min (max |latitude| 10) 60
    seasonalShift := if latitude < 0 then 182.5 else 0
    absLatitude := |latitude| }

/-- `calculatePanelEfficiency(azimuth, tilt, latitude)` (lines 573-610):
azimuth term `0.7 + 0.3·cos(wrapped azimuth difference)` times a piecewise
linear tilt term around the optimal tilt. -/
def calculatePanelEfficiency (azimuth tilt latitude : ℝ) : ℝ :=
  let locationInfo := getLocationInfo latitude 0
  let optimalAzimuth := locationInfo.optimalAzimuth
  let azimuthRadians := azimuth * π / 180
  let optimalAzimuthRadians := optimalAzimuth * π / 180
  let azimuthDifference := |azimuthRadians - optimalAzimuthRadians|
  let normalizedAzimuthDiff := min azimuthDifference (2 * π - azimuthDifference)
  let azimuthEfficiency := 0.7 + 0.3 * cos normalizedAzimuthDiff
  let optimalTilt := locationInfo.optimalTilt
  let tiltEfficiency :=
    if tilt ≤ optimalTilt then 0.85 + (tilt / optimalTilt) * 0.15
    else if tilt ≤ optimalTilt + 30 then 1.0 - ((tilt - optimalTilt) / 30) * 0.15
    else 0.85 - ((tilt - optimalTilt - 30) / 30) * 0.10
  azimuthEfficiency * tiltEfficiency

/-- `getLocationWeatherFactor(dayOfYear, latitude)` (lines 1079-1138):
climate-zone base factor by `|latitude|` bucket, seasonal multiplier by
approximate month (with a 182.5-day shift in the southern hemisphere),
clamped to [0.2, 1.0]. -/
def getLocationWeatherFactor (dayOfYear latitude : ℝ) : ℝ :=
  let locationInfo := getLocationInfo latitude 0
  let adjustedDayOfYear :=
    if latitude < 0 then jsFmod (dayOfYear + 182.5) 365 else dayOfYear
  let absLatitude := locationInfo.absLatitude
  let baseWeatherFactor :=
    if 60 ≤ absLatitude then 0.35
    else if 45 ≤ absLatitude then 0.65
    else if 23.5 ≤ absLatitude then 0.75
    else 0.60
  let monthApprox : ℤ := ⌊(adjustedDayOfYear - 1) / 30.4⌋ + 1
  let seasonalMultiplier :=
    if monthApprox ≤ 2 ∨ monthApprox = 12 then 0.8
    else if 3 ≤ monthApprox ∧ monthApprox ≤ 5 then 0.95
    else if 6 ≤ monthApprox ∧ monthApprox ≤ 8 then 1.1
    else 0.9
  max 0.2 (min 1.0 (baseWeatherFactor * seasonalMultiplier))

/-- One entry of the daily irradiance curve built by `generateSolarCurve`
(lines 811-837): 0 when the sun is down, otherwise attenuation × weather
factor × intra-day variation `0.9 + 0.2·sin(hour·π/12)`, clamped to [0,1]. -/
def solarCurveEntry (dayOfYear latitude : ℝ) (hour : ℕ) : ℝ :=
  let solarPos := calculateSolarPosition hour dayOfYear latitude
  if 0 < solarPos.elevation then
    let irradiance := calculateAtmosphericAttenuation solarPos.elevation
    let weatherFactor := getLocationWeatherFactor dayOfYear latitude
    let variationFactor := 0.9 + 0.2 * sin ((hour : ℝ) * π / 12)
    max 0 (min 1 (irradiance * weatherFactor * variationFactor))
  else 0

/-- `generateSolarCurve(dayOfYear, latitude)`: the 24-entry hourly
irradiance array. -/
def generateSolarCurve (dayOfYear latitude : ℝ) : List ℝ :=
  (List.range 24).map (solarCurveEntry dayOfYear latitude)

/-- `getHourlyIrradiance(hour, peakSunHours, dayOfYear, latitude)`
(lines 933-946): curve entry (`curve[hour] || 0`) scaled so the curve sums
to `peakSunHours`, floor-clamped at 0. -/
def getHourlyIrradiance (hour : ℕ) (peakSunHours dayOfYear latitude : ℝ) : ℝ :=
  let realisticCurve := generateSolarCurve dayOfYear latitude
  let rawFactor := realisticCurve.getD hour 0
  let totalRawHours := realisticCurve.sum
  let scalingFactor := if 0 < totalRawHours then peakSunHours / totalRawHours else 0
  max 0 (rawFactor * scalingFactor)

/-- `calculatePanelOrientationFactor(sunElevation, sunAzimuth, panelTilt,
panelAzimuth)` (lines 903-927): cosine of the incidence angle between the
sun vector and the panel normal, floor-clamped at 0; 0 when the sun is at or
below the horizon. -/
def calculatePanelOrientationFactor (sunElevation sunAzimuth panelTilt panelAzimuth : ℝ) : ℝ :=
  if sunElevation ≤ 0 then 0
  else
    let sunElev := sunElevation * π / 180
    let sunAz := sunAzimuth * π / 180
    let panelTiltRad := panelTilt * π / 180
    let panelAzRad := panelAzimuth * π / 180
    let sunX := cos sunElev * sin sunAz
    let sunY := cos sunElev * cos sunAz
    let sunZ := sin sunElev
    let panelX := sin panelTiltRad * sin panelAzRad
    let panelY := sin panelTiltRad * cos panelAzRad
    let panelZ := cos panelTiltRad
    max 0 (sunX * panelX + sunY * panelY + sunZ * panelZ)

/-- Return value of `calculateDailyEnergyWithClipping`. -/
structure DailyProductionResult where
  totalEnergy : ℝ
  energyLostToClipping : ℝ
  maxInstantaneousPower : ℝ
  hoursClippedPerDay : ℝ

/-- One iteration of the hourly loop of `calculateDailyEnergyWithClipping`
(lines 850-888): hours with irradiance at most 0.001 are skipped; otherwise
instantaneous power is capacity × efficiency × irradiance × orientation, the
pre-clip maximum is tracked, and power above `maxInverterOutputW` is clipped,
accumulating the loss and the fractional clipped hours. -/
def dailyStep (dcCapacityW peakSunHours efficiency maxInverterOutputW panelAzimuth panelTilt
    dayOfYear latitude : ℝ) (s : DailyProductionResult) (hour : ℕ) : DailyProductionResult :=
  let baseIrradiance := getHourlyIrradiance hour peakSunHours dayOfYear latitude
  if 0.001 < baseIrradiance then
    let sunPosition := calculateSolarPosition hour dayOfYear latitude
    let panelOrientationFactor := calculatePanelOrientationFactor
      sunPosition.elevation sunPosition.azimuth panelTilt panelAzimuth
    let effectiveIrradiance := baseIrradiance * panelOrientationFactor
    let instantaneousPower := dcCapacityW * efficiency * effectiveIrradiance
    let maxP := max s.maxInstantaneousPower instantaneousPower
    if maxInverterOutputW < instantaneousPower then
      { totalEnergy := s.totalEnergy + maxInverterOutputW
        energyLostToClipping := s.energyLostToClipping + (instantaneousPower - maxInverterOutputW)
        maxInstantaneousPower := maxP
        hoursClippedPerDay :=
          s.hoursClippedPerDay + (instantaneousPower - maxInverterOutputW) / instantaneousPower }
    else
      { totalEnergy := s.totalEnergy + instantaneousPower
        energyLostToClipping := s.energyLostToClipping
        maxInstantaneousPower := maxP
        hoursClippedPerDay := s.hoursClippedPerDay }
  else s

/-- `calculateDailyEnergyWithClipping(dcCapacityW, peakSunHours, efficiency,
maxInverterOutputW, panelAzimuth, panelTilt, dayOfYear, latitude)`
(lines 843-897): fold the hourly loop over hours 0..23 starting from the
all-zero accumulator. -/
def calculateDailyEnergyWithClipping (dcCapacityW peakSunHours efficiency maxInverterOutputW
    panelAzimuth panelTilt dayOfYear latitude : ℝ) : DailyProductionResult :=
  (List.range 24).foldl
    (dailyStep dcCapacityW peakSunHours efficiency maxInverterOutputW panelAzimuth panelTilt
      dayOfYear latitude)
    { totalEnergy := 0, energyLostToClipping := 0, maxInstantaneousPower := 0,
      hoursClippedPerDay := 0 }

/-- Modelled from the spec: the Energy Integrator run with
`maxInverterOutputW = null`, meaning the clipping branch of step 4 is never
taken ("if maxInverterOutputW is not null and instantaneousPowerW > cap").
The source's `calculateDailyEnergyWithClipping` is only ever invoked with a
numeric cap; this hourly step realises the "cap absent, no clipping applied"
comparison run of the testable properties. -/
def dailyStepNoClip (dcCapacityW peakSunHours efficiency panelAzimuth panelTilt
    dayOfYear latitude : ℝ) (s : DailyProductionResult) (hour : ℕ) : DailyProductionResult :=
  let baseIrradiance := getHourlyIrradiance hour peakSunHours dayOfYear latitude
  if 0.001 < baseIrradiance then
    let sunPosition := calculateSolarPosition hour dayOfYear latitude
    let panelOrientationFactor := calculatePanelOrientationFactor
      sunPosition.elevation sunPosition.azimuth panelTilt panelAzimuth
    let effectiveIrradiance := baseIrradiance * panelOrientationFactor
    let instantaneousPower := dcCapacityW * efficiency * effectiveIrradiance
    { totalEnergy := s.totalEnergy + instantaneousPower
      energyLostToClipping := s.energyLostToClipping
      maxInstantaneousPower := max s.maxInstantaneousPower instantaneousPower
      hoursClippedPerDay := s.hoursClippedPerDay }
  else s

/-- Modelled from the spec: the daily simulation with the inverter cap
absent (no clipping applied), folding `dailyStepNoClip` over hours 0..23. -/
def calculateDailyEnergyNoClip (dcCapacityW peakSunHours efficiency
    panelAzimuth panelTilt dayOfYear latitude : ℝ) : DailyProductionResult :=
  (List.range 24).foldl
    (dailyStepNoClip dcCapacityW peakSunHours efficiency panelAzimuth panelTilt
      dayOfYear latitude)
    { totalEnergy := 0, energyLostToClipping := 0, maxInstantaneousPower := 0,
      hoursClippedPerDay := 0 }

/-- `isLocationInEurope(latitude, longitude)` (lines 1185-1203): the
approximate Europe bounding box, latitude in [35, 71] and longitude in
[-10, 40]. -/
def isLocationInEurope (latitude longitude : ℝ) : Prop :=
  (35 ≤ latitude ∧ latitude ≤ 71) ∧ (-10 ≤ longitude ∧ longitude ≤ 40)

/-- Return value of `getRegionalSolarRegulations`; `none` models the JS
`null` caps of non-European locations. -/
structure RegionalRegulation where
  maxInverterOutputW : Option ℝ
  maxPanelCapacityW : Option ℝ
  regionName : String
  applyGermanRules : Prop

/-- `getRegionalSolarRegulations(latitude, longitude)` (lines 1238-1258):
German caps (800 W inverter, 2000 W panels) inside Europe, null caps
outside. -/
def getRegionalSolarRegulations (latitude longitude : ℝ) : RegionalRegulation :=
  if isLocationInEurope latitude longitude then
    { maxInverterOutputW := some 800
      maxPanelCapacityW := some 2000
      regionName := "Europe (German Regulations)"
      applyGermanRules := True }
  else
    { maxInverterOutputW := none
      maxPanelCapacityW := none
      regionName := "Outside Europe"
      applyGermanRules := False }

/-- Solar API payload fragment read by the engine; the `Option` layers model
the JS truthiness chain `solarData && solarData.solarPotential &&
solarData.solarPotential.maxSunshineHoursPerYear`. -/
structure SolarPotential where
  maxSunshineHoursPerYear : Option ℝ

/-- Wrapper for the Solar API response object. -/
structure SolarData where
  solarPotential : Option SolarPotential

/-- Panel array configuration value object; only `totalWattage` is read by
the engine. -/
structure PanelConfig where
  totalWattage : ℝ

/-- Geographic location input. -/
structure Location where
  lat : ℝ
  lng : ℝ

/-- Peak sun hours resolution of `calculateGermanSolarOutput`
(lines 660-673): real Solar API sunshine hours divided by 365 when the
truthy chain holds (a stored value of 0 is falsy in JS and falls through),
otherwise the German fallback 1100 kWh/m²/year divided by 365. -/
def peakSunHoursOf (solarData : Option SolarData) : ℝ :=
  match solarData with
  | some sd =>
    match sd.solarPotential with
    | some sp =>
      match sp.maxSunshineHoursPerYear with
      | some h => if h = 0 then 1100 / 365 else h / 365
      | none => 1100 / 365
    | none => 1100 / 365
  | none => 1100 / 365

/-- The inverter cap handed to the clipping simulation (lines 676-678):
the regulatory cap when German rules apply (JS reads the non-null field; a
null read would coerce to 0, hence `Option.getD 0`), otherwise the synthetic
cap `totalWattage * 2` for non-European locations. -/
def maxInverterOutputForCalculation (regulations : RegionalRegulation)
    (totalWattage : ℝ) : ℝ :=
  if regulations.applyGermanRules then regulations.maxInverterOutputW.getD 0
  else totalWattage * 2

/-- One reference day of the seasonal breakdown. -/
structure SeasonRef where
  season : String
  day : ℝ
  month : String

/-- Northern-hemisphere season labels and reference days (lines 958-963). -/
def northernSeasons : List SeasonRef :=
  [⟨"Winter Solstice", 355, "December"⟩,
   ⟨"Spring Equinox", 80, "March"⟩,
   ⟨"Summer Solstice", 172, "June"⟩,
   ⟨"Fall Equinox", 266, "September"⟩]

/-- Southern-hemisphere season labels for the same reference days
(lines 966-971). -/
def southernSeasons : List SeasonRef :=
  [⟨"Summer Solstice", 355, "December"⟩,
   ⟨"Fall Equinox", 80, "March"⟩,
   ⟨"Winter Solstice", 172, "June"⟩,
   ⟨"Spring Equinox", 266, "September"⟩]

/-- Total attenuated irradiance over the 24 hours of a day, the inner loops
of `calculateSeasonalSolarIrradiance` (lines 1045-1066). -/
def seasonalDailyIrradianceTotal (dayOfYear latitude : ℝ) : ℝ :=
  ((List.range 24).map (fun hour =>
    let solarPos := calculateSolarPosition hour dayOfYear latitude
    if 0 < solarPos.elevation then calculateAtmosphericAttenuation solarPos.elevation
    else 0)).sum

/-- `calculateSeasonalSolarIrradiance(dayOfYear, latitude)` (lines
1040-1073): the day's attenuated irradiance relative to the summer-solstice
reference, times the weather factor, clamped to [0.1, 1.5]. -/
def calculateSeasonalSolarIrradiance (dayOfYear latitude : ℝ) : ℝ :=
  let totalDailyIrradiance := seasonalDailyIrradianceTotal dayOfYear latitude
  let summerTotalIrradiance := seasonalDailyIrradianceTotal 172 latitude
  let weatherFactor := getLocationWeatherFactor dayOfYear latitude
  let geometricFactor := totalDailyIrradiance / max summerTotalIrradiance 0.1
  max 0.1 (min 1.5 (geometricFactor * weatherFactor))

/-- Annual peak sun hours used by the seasonal breakdown (lines 974-1001):
Solar API data when the truthy chain holds, otherwise a climate-zone
fallback keyed by `|latitude|` bucket. -/
def seasonalAnnualPeakSunHours (solarData : Option SolarData) (latitude : ℝ) : ℝ :=
  match solarData with
  | some sd =>
    match sd.solarPotential with
    | some sp =>
      match sp.maxSunshineHoursPerYear with
      | some h =>
        if h = 0 then climateFallbackAnnualPeakSunHours latitude else h / 365
      | none => climateFallbackAnnualPeakSunHours latitude
    | none => climateFallbackAnnualPeakSunHours latitude
  | none => climateFallbackAnnualPeakSunHours latitude
where
  /-- Climate-zone fallback irradiance divided by 365 (lines 980-994). -/
  climateFallbackAnnualPeakSunHours (latitude : ℝ) : ℝ :=
    let absLatitude := |latitude|
    let baseIrradiance : ℝ :=
      if 60 ≤ absLatitude then 800
      else if 45 ≤ absLatitude then 1100
      else if 23.5 ≤ absLatitude then 1400
      else 1600
    baseIrradiance / 365

/-- One element of the seasonal breakdown result (lines 1019-1030). -/
structure SeasonalSample where
  season : String
  month : String
  dailyEnergyKwh : ℝ
  monthlyEnergyKwh : ℝ
  clippingLossPercent : ℝ
  peakSunHours : ℝ
  hoursClipped : ℝ
  seasonalFactor : ℝ

/-- `calculateSeasonalVariations(dcCapacityW, efficiency, maxInverterOutputW,
panelAzimuth, panelTilt, solarData, latitude)` (lines 952-1033): one daily
clipping simulation per hemisphere-adjusted reference day. -/
def calculateSeasonalVariations (dcCapacityW efficiency maxInverterOutputW
    panelAzimuth panelTilt : ℝ) (solarData : Option SolarData)
    (latitude : ℝ) : List SeasonalSample :=
  let locationInfo := getLocationInfo latitude 0
  let seasons := if locationInfo.isNorthernHemisphere then northernSeasons else southernSeasons
  let annualPeakSunHours := seasonalAnnualPeakSunHours solarData latitude
  seasons.map (fun season =>
    let seasonalIrradiance := calculateSeasonalSolarIrradiance season.day latitude
    let seasonalPeakSunHours := annualPeakSunHours * seasonalIrradiance
    let dailyProduction := calculateDailyEnergyWithClipping dcCapacityW seasonalPeakSunHours
      efficiency maxInverterOutputW panelAzimuth panelTilt season.day latitude
    { season := season.season
      month := season.month
      dailyEnergyKwh := dailyProduction.totalEnergy / 1000
      monthlyEnergyKwh := dailyProduction.totalEnergy * 30 / 1000
      clippingLossPercent :=
        if 0 < dailyProduction.energyLostToClipping then
          dailyProduction.energyLostToClipping /
            (dailyProduction.totalEnergy + dailyProduction.energyLostToClipping) * 100
        else 0
      peakSunHours := jsRound (seasonalPeakSunHours * 100) / 100
      hoursClipped := dailyProduction.hoursClippedPerDay
      seasonalFactor := jsRound (seasonalIrradiance * 100) / 100 })

/-- Return value of `calculateGermanSolarOutput` (lines 725-744). -/
structure GermanSolarOutput where
  annualEnergyProduction : ℝ
  unclippedEstimate : ℝ
  energyLostToClipping : ℝ
  clippingLossPercentage : ℝ
  hoursClippedPerDay : ℝ
  maxInstantaneousPower : ℝ
  maxInverterOutput : Option ℝ
  isClippingSignificant : Prop
  exceedsInverterCapacity : Prop
  exceedsPanelLimit : Prop
  isCompliantWithGermanRules : Prop
  peakSunHours : ℝ
  seasonalData : List SeasonalSample
  dailyEnergyWh : ℝ
  regulations : RegionalRegulation
  isInEurope : Prop

/-- `calculateGermanSolarOutput(solarData, panelConfig, efficiency,
panelAzimuth, panelTilt, location)` (lines 618-745): resolve the regional
regulation (default Central Europe location for a missing location; the
`lat !== undefined` fallback branch is unreachable in this model since every
`Location` carries coordinates), run the day-172 clipping simulation with
the regulation-dependent cap, scale to a year by 365, and assemble the
rounded output together with the compliance flags and seasonal breakdown. -/
def calculateGermanSolarOutput (solarData : Option SolarData) (panelConfig : PanelConfig)
    (efficiency panelAzimuth panelTilt : ℝ) (location : Option Location) : GermanSolarOutput :=
  let defaultLocation : Location := { lat := 51.0, lng := 10.0 }
  let calculationLocation := location.getD defaultLocation
  let regulations := getRegionalSolarRegulations calculationLocation.lat calculationLocation.lng
  let exceedsPanelLimit : Prop :=
    if regulations.applyGermanRules then
      regulations.maxPanelCapacityW.getD 0 < panelConfig.totalWattage
    else False
  let peakSunHours := peakSunHoursOf solarData
  let maxInverterOutputForCalc :=
    maxInverterOutputForCalculation regulations panelConfig.totalWattage
  let dailyProduction := calculateDailyEnergyWithClipping panelConfig.totalWattage
    peakSunHours efficiency maxInverterOutputForCalc panelAzimuth panelTilt 172
    calculationLocation.lat
  let exceedsInverterCapacity : Prop :=
    if regulations.applyGermanRules then
      regulations.maxInverterOutputW.getD 0 < dailyProduction.maxInstantaneousPower
    else False
  let annualEnergyProduction := dailyProduction.totalEnergy * 365
  let annualEnergyLostToClipping := dailyProduction.energyLostToClipping * 365
  let totalPotentialEnergy := annualEnergyProduction + annualEnergyLostToClipping
  let clippingLossPercentage :=
    if 0 < totalPotentialEnergy then
      annualEnergyLostToClipping / totalPotentialEnergy * 100
    else 0
  let seasonalData := calculateSeasonalVariations panelConfig.totalWattage efficiency
    maxInverterOutputForCalc panelAzimuth panelTilt solarData calculationLocation.lat
  { annualEnergyProduction := jsRound (annualEnergyProduction / 1000)
    unclippedEstimate := jsRound (totalPotentialEnergy / 1000)
    energyLostToClipping := jsRound (annualEnergyLostToClipping / 1000)
    clippingLossPercentage := jsRound (clippingLossPercentage * 10) / 10
    hoursClippedPerDay := jsRound (dailyProduction.hoursClippedPerDay * 100) / 100
    maxInstantaneousPower := jsRound dailyProduction.maxInstantaneousPower
    maxInverterOutput := regulations.maxInverterOutputW
    isClippingSignificant := 5 < clippingLossPercentage
    exceedsInverterCapacity := exceedsInverterCapacity
    exceedsPanelLimit := exceedsPanelLimit
    isCompliantWithGermanRules :=
      if regulations.applyGermanRules then ¬exceedsPanelLimit ∧ ¬exceedsInverterCapacity
      else True
    peakSunHours := jsRound (peakSunHours * 100) / 100
    seasonalData := seasonalData
    dailyEnergyWh := jsRound dailyProduction.totalEnergy
    regulations := regulations
    isInEurope := regulations.applyGermanRules }

/-- Return value of `calculatePanelSolarData`. -/
structure PanelSolarResult where
  solarData : SolarData
  efficiency : ℝ
  germanOutput : GermanSolarOutput
  panelConfig : PanelConfig
  panelAzimuth : ℝ
  panelTilt : ℝ

/-- `calculatePanelSolarData(location, panelConfig, panelAzimuth, panelTilt)`
(lines 540-568): the engine boundary. The awaited Solar API response is an
input here; a falsy response throws (`none`), otherwise efficiency and the
regulated output are computed unconditionally — there is no validation of
wattage, tilt or latitude. -/
def calculatePanelSolarData (solarData : Option SolarData) (location : Location)
    (panelConfig : PanelConfig) (panelAzimuth panelTilt : ℝ) : Option PanelSolarResult :=
  match solarData with
  | none => none
  | some sd =>
    let efficiency := calculatePanelEfficiency panelAzimuth panelTilt location.lat
    let germanOutput := calculateGermanSolarOutput (some sd) panelConfig efficiency
      panelAzimuth panelTilt (some location)
    some { solarData := sd
           efficiency := efficiency
           germanOutput := germanOutput
           panelConfig := panelConfig
           panelAzimuth := panelAzimuth
           panelTilt := panelTilt }

/-! Helper abbreviation and characterizations of the hourly loop body. -/

/-- The instantaneous power computed by the hourly loop body for a given
hour: capacity × efficiency × (scaled irradiance × orientation factor). -/
def hourPower (dcCapacityW peakSunHours efficiency panelAzimuth panelTilt
    dayOfYear latitude : ℝ) (hour : ℕ) : ℝ :=
  let sunPosition := calculateSolarPosition hour dayOfYear latitude
  dcCapacityW * efficiency *
    (getHourlyIrradiance hour peakSunHours dayOfYear latitude *
      calculatePanelOrientationFactor sunPosition.elevation sunPosition.azimuth
        panelTilt panelAzimuth)

lemma dailyStep_of_skip {dc psh eff inv az tilt day lat : ℝ} {hour : ℕ}
    (hb : ¬ (0.001 : ℝ) < getHourlyIrradiance hour psh day lat)
    (s : DailyProductionResult) :
    dailyStep dc psh eff inv az tilt day lat s hour = s := by
  simp only [dailyStep, if_neg hb]

lemma dailyStep_of_clip {dc psh eff inv az tilt day lat : ℝ} {hour : ℕ}
    (hb : (0.001 : ℝ) < getHourlyIrradiance hour psh day lat)
    (hc : inv < hourPower dc psh eff az tilt day lat hour)
    (s : DailyProductionResult) :
    dailyStep dc psh eff inv az tilt day lat s hour =
      { totalEnergy := s.totalEnergy + inv
        energyLostToClipping :=
          s.energyLostToClipping + (hourPower dc psh eff az tilt day lat hour - inv)
        maxInstantaneousPower :=
          max s.maxInstantaneousPower (hourPower dc psh eff az tilt day lat hour)
        hoursClippedPerDay :=
          s.hoursClippedPerDay + (hourPower dc psh eff az tilt day lat hour - inv) /
            hourPower dc psh eff az tilt day lat hour } := by
  simp only [dailyStep, hourPower] at hc ⊢
  simp only [if_pos hb, if_pos hc]

lemma dailyStep_of_noclip {dc psh eff inv az tilt day lat : ℝ} {hour : ℕ}
    (hb : (0.001 : ℝ) < getHourlyIrradiance hour psh day lat)
    (hc : ¬ inv < hourPower dc psh eff az tilt day lat hour)
    (s : DailyProductionResult) :
    dailyStep dc psh eff inv az tilt day lat s hour =
      { totalEnergy := s.totalEnergy + hourPower dc psh eff az tilt day lat hour
        energyLostToClipping := s.energyLostToClipping
        maxInstantaneousPower :=
          max s.maxInstantaneousPower (hourPower dc psh eff az tilt day lat hour)
        hoursClippedPerDay := s.hoursClippedPerDay } := by
  simp only [dailyStep, hourPower] at hc ⊢
  simp only [if_pos hb, if_neg hc]

lemma dailyStepNoClip_of_skip {dc psh eff az tilt day lat : ℝ} {hour : ℕ}
    (hb : ¬ (0.001 : ℝ) < getHourlyIrradiance hour psh day lat)
    (s : DailyProductionResult) :
    dailyStepNoClip dc psh eff az tilt day lat s hour = s := by
  simp only [dailyStepNoClip, if_neg hb]

lemma dailyStepNoClip_of_proc {dc psh eff az tilt day lat : ℝ} {hour : ℕ}
    (hb : (0.001 : ℝ) < getHourlyIrradiance hour psh day lat)
    (s : DailyProductionResult) :
    dailyStepNoClip dc psh eff az tilt day lat s hour =
      { totalEnergy := s.totalEnergy + hourPower dc psh eff az tilt day lat hour
        energyLostToClipping := s.energyLostToClipping
        maxInstantaneousPower :=
          max s.maxInstantaneousPower (hourPower dc psh eff az tilt day lat hour)
        hoursClippedPerDay := s.hoursClippedPerDay } := by
  simp only [dailyStepNoClip, hourPower]
  simp only [if_pos hb]

lemma getHourlyIrradiance_nonneg (hour : ℕ) (psh day lat : ℝ) :
    0 ≤ getHourlyIrradiance hour psh day lat :=
  le_max_left 0 _

lemma calculatePanelOrientationFactor_nonneg (a b c d : ℝ) :
    0 ≤ calculatePanelOrientationFactor a b c d := by
  unfold calculatePanelOrientationFactor
  split_ifs
  · exact le_refl 0
  · exact le_max_left 0 _

lemma hourPower_nonneg {dc psh eff az tilt day lat : ℝ} (hdc : 0 ≤ dc) (heff : 0 ≤ eff)
    (hour : ℕ) : 0 ≤ hourPower dc psh eff az tilt day lat hour := by
  unfold hourPower
  exact mul_nonneg (mul_nonneg hdc heff)
    (mul_nonneg (getHourlyIrradiance_nonneg hour psh day lat)
      (calculatePanelOrientationFactor_nonneg _ _ _ _))

lemma foldl_totalEnergy_le_noClip (dc psh eff inv az tilt day lat : ℝ) :
    ∀ (l : List ℕ) (s₁ s₂ : DailyProductionResult),
      s₁.totalEnergy ≤ s₂.totalEnergy →
      (l.foldl (dailyStep dc psh eff inv az tilt day lat) s₁).totalEnergy ≤
        (l.foldl (dailyStepNoClip dc psh eff az tilt day lat) s₂).totalEnergy := by
  intro l
  induction l with
  | nil => intro s₁ s₂ h; exact h
  | cons hd tl ih =>
    intro s₁ s₂ h
    simp only [List.foldl_cons]
    apply ih
    by_cases hb : (0.001 : ℝ) < getHourlyIrradiance hd psh day lat
    · by_cases hc : inv < hourPower dc psh eff az tilt day lat hd
      · rw [dailyStep_of_clip hb hc, dailyStepNoClip_of_proc hb]
        dsimp only
        linarith
      · rw [dailyStep_of_noclip hb hc, dailyStepNoClip_of_proc hb]
        dsimp only
        linarith
    · rw [dailyStep_of_skip hb, dailyStepNoClip_of_skip hb]
      exact h

/-- C4. Clipping never increases output: for every input, the total daily
energy of the clipping simulation is at most that of the same simulation run
with the inverter cap absent (no clipping applied). -/
theorem clipping_never_increases_output (dc psh eff inv az tilt day lat : ℝ) :
    (calculateDailyEnergyWithClipping dc psh eff inv az tilt day lat).totalEnergy ≤
      (calculateDailyEnergyNoClip dc psh eff az tilt day lat).totalEnergy := by
  unfold calculateDailyEnergyWithClipping calculateDailyEnergyNoClip
  exact foldl_totalEnergy_le_noClip dc psh eff inv az tilt day lat (List.range 24) _ _ le_rfl

/-- Invariant carried through the hourly loop for the result-shape claim:
after consuming `k` hours, all accumulators are non-negative, the fractional
clipped hours are at most `k`, and the accumulated energy is at most
`k` times the inverter cap. -/
def DailyInv (inv : ℝ) (s : DailyProductionResult) (k : ℕ) : Prop :=
  0 ≤ s.totalEnergy ∧ s.totalEnergy ≤ k * inv ∧ 0 ≤ s.energyLostToClipping ∧
    0 ≤ s.maxInstantaneousPower ∧ 0 ≤ s.hoursClippedPerDay ∧ s.hoursClippedPerDay ≤ k

lemma dailyStep_inv {dc psh eff inv az tilt day lat : ℝ}
    (hdc : 0 ≤ dc) (heff : 0 ≤ eff) (hinv : 0 ≤ inv)
    {s : DailyProductionResult} {k : ℕ} (hour : ℕ) (h : DailyInv inv s k) :
    DailyInv inv (dailyStep dc psh eff inv az tilt day lat s hour) (k + 1) := by
  obtain ⟨h1, h2, h3, h4, h5, h6⟩ := h
  have hp := @hourPower_nonneg dc psh eff az tilt day lat hdc heff hour
  by_cases hb : (0.001 : ℝ) < getHourlyIrradiance hour psh day lat
  · by_cases hc : inv < hourPower dc psh eff az tilt day lat hour
    · rw [dailyStep_of_clip hb hc]
      have hppos : 0 < hourPower dc psh eff az tilt day lat hour := lt_of_le_of_lt hinv hc
      have hq0 : 0 ≤ (hourPower dc psh eff az tilt day lat hour - inv) /
          hourPower dc psh eff az tilt day lat hour :=
        div_nonneg (by linarith) (le_of_lt hppos)
      have hq1 : (hourPower dc psh eff az tilt day lat hour - inv) /
          hourPower dc psh eff az tilt day lat hour ≤ 1 := by
        rw [div_le_one hppos]
        linarith
      unfold DailyInv
      dsimp only
      push_cast
      refine ⟨by linarith, by linarith, by linarith,
        le_trans h4 (le_max_left _ _), by linarith, by linarith⟩
    · rw [dailyStep_of_noclip hb hc]
      push_neg at hc
      unfold DailyInv
      dsimp only
      push_cast
      refine ⟨by linarith, by linarith, h3,
        le_trans h4 (le_max_left _ _), h5, by linarith⟩
  · rw [dailyStep_of_skip hb]
    unfold DailyInv
    push_cast
    have hk : (k : ℝ) * inv ≤ ((k : ℝ) + 1) * inv := by nlinarith
    refine ⟨h1, by linarith, h3, h4, h5, by linarith⟩

lemma foldl_daily_inv {dc psh eff inv az tilt day lat : ℝ}
    (hdc : 0 ≤ dc) (heff : 0 ≤ eff) (hinv : 0 ≤ inv) :
    ∀ (l : List ℕ) (s : DailyProductionResult) (k : ℕ), DailyInv inv s k →
      DailyInv inv (l.foldl (dailyStep dc psh eff inv az tilt day lat) s) (k + l.length) := by
  intro l
  induction l with
  | nil => intro s k h; simpa using h
  | cons hd tl ih =>
    intro s k h
    simp only [List.foldl_cons, List.length_cons]
    have hrec := ih (dailyStep dc psh eff inv az tilt day lat s hd) (k + 1)
      (dailyStep_inv hdc heff hinv hd h)
    rw [show k + (tl.length + 1) = k + 1 + tl.length from by omega]
    exact hrec

/-- C10 amended. Shape invariants of the daily simulation result: with
non-negative capacity, efficiency in [0,1] and a non-negative inverter cap,
all reported quantities are non-negative, the fractional clipped hours lie
in [0, 24], and the total energy is bounded by 24 hours at the cap. The cap
hypothesis is needed for every conjunct: with a negative cap each processed
hour clips to the negative cap, driving the total energy negative and each
hour's fractional clipping above 1 (see the counterexample). -/
theorem daily_result_invariants (dc psh eff inv az tilt day lat : ℝ)
    (hdc : 0 ≤ dc) (heff0 : 0 ≤ eff) (heff1 : eff ≤ 1) (hinv : 0 ≤ inv) :
    0 ≤ (calculateDailyEnergyWithClipping dc psh eff inv az tilt day lat).totalEnergy ∧
    0 ≤ (calculateDailyEnergyWithClipping dc psh eff inv az tilt day lat).energyLostToClipping ∧
    0 ≤ (calculateDailyEnergyWithClipping dc psh eff inv az tilt day lat).maxInstantaneousPower ∧
    0 ≤ (calculateDailyEnergyWithClipping dc psh eff inv az tilt day lat).hoursClippedPerDay ∧
    (calculateDailyEnergyWithClipping dc psh eff inv az tilt day lat).hoursClippedPerDay ≤ 24 ∧
    (calculateDailyEnergyWithClipping dc psh eff inv az tilt day lat).totalEnergy ≤ 24 * inv := by
  have h0 : DailyInv inv
      { totalEnergy := 0, energyLostToClipping := 0, maxInstantaneousPower := 0,
        hoursClippedPerDay := 0 } 0 := by
    refine ⟨le_rfl, by norm_num, le_rfl, le_rfl, le_rfl, by norm_num⟩
  have h := @foldl_daily_inv dc psh eff inv az tilt day lat hdc heff0 hinv (List.range 24) _ 0 h0
  simp only [List.length_range, Nat.zero_add] at h
  obtain ⟨h1, h2, h3, h4, h5, h6⟩ := h
  refine ⟨h1, h3, h4, h5, ?_, ?_⟩
  · simpa using h6
  · simpa using h2

/-- Closed witness for `daily_result_invariants` at a concrete input. -/
theorem daily_result_invariants_witness :
    0 ≤ (calculateDailyEnergyWithClipping 100 3 0.8 800 180 30 172 51).totalEnergy ∧
    0 ≤ (calculateDailyEnergyWithClipping 100 3 0.8 800 180 30 172 51).energyLostToClipping ∧
    0 ≤ (calculateDailyEnergyWithClipping 100 3 0.8 800 180 30 172 51).maxInstantaneousPower ∧
    0 ≤ (calculateDailyEnergyWithClipping 100 3 0.8 800 180 30 172 51).hoursClippedPerDay ∧
    (calculateDailyEnergyWithClipping 100 3 0.8 800 180 30 172 51).hoursClippedPerDay ≤ 24 ∧
    (calculateDailyEnergyWithClipping 100 3 0.8 800 180 30 172 51).totalEnergy ≤ 24 * 800 := by
  have h := daily_result_invariants 100 3 0.8 800 180 30 172 51
    (by norm_num) (by norm_num) (by norm_num) (by norm_num)
  exact h

lemma dailyStep_maxP_le (dc psh eff inv az tilt day lat : ℝ)
    (s : DailyProductionResult) (hour : ℕ) :
    s.maxInstantaneousPower ≤
      (dailyStep dc psh eff inv az tilt day lat s hour).maxInstantaneousPower := by
  by_cases hb : (0.001 : ℝ) < getHourlyIrradiance hour psh day lat
  · by_cases hc : inv < hourPower dc psh eff az tilt day lat hour
    · rw [dailyStep_of_clip hb hc]
      exact le_max_left _ _
    · rw [dailyStep_of_noclip hb hc]
      exact le_max_left _ _
  · rw [dailyStep_of_skip hb]

lemma foldl_maxP_le (dc psh eff inv az tilt day lat : ℝ) :
    ∀ (l : List ℕ) (s : DailyProductionResult),
      s.maxInstantaneousPower ≤
        (l.foldl (dailyStep dc psh eff inv az tilt day lat) s).maxInstantaneousPower := by
  intro l
  induction l with
  | nil => intro s; exact le_rfl
  | cons hd tl ih =>
    intro s
    simp only [List.foldl_cons]
    exact le_trans (dailyStep_maxP_le dc psh eff inv az tilt day lat s hd) (ih _)

lemma foldl_no_clip_of_maxP_le (dc psh eff inv az tilt day lat : ℝ) :
    ∀ (l : List ℕ) (s : DailyProductionResult),
      (l.foldl (dailyStep dc psh eff inv az tilt day lat) s).maxInstantaneousPower ≤ inv →
      (l.foldl (dailyStep dc psh eff inv az tilt day lat) s).energyLostToClipping =
          s.energyLostToClipping ∧
        (l.foldl (dailyStep dc psh eff inv az tilt day lat) s).hoursClippedPerDay =
          s.hoursClippedPerDay := by
  intro l
  induction l with
  | nil => intro s _; exact ⟨rfl, rfl⟩
  | cons hd tl ih =>
    intro s hm
    simp only [List.foldl_cons] at hm ⊢
    by_cases hb : (0.001 : ℝ) < getHourlyIrradiance hd psh day lat
    · by_cases hc : inv < hourPower dc psh eff az tilt day lat hd
      · exfalso
        have h1 : hourPower dc psh eff az tilt day lat hd ≤
            (dailyStep dc psh eff inv az tilt day lat s hd).maxInstantaneousPower := by
          rw [dailyStep_of_clip hb hc]
          exact le_max_right _ _
        have h2 := foldl_maxP_le dc psh eff inv az tilt day lat tl
          (dailyStep dc psh eff inv az tilt day lat s hd)
        linarith
      · have hstep := @dailyStep_of_noclip dc psh eff inv az tilt day lat hd hb hc s
        obtain ⟨hl, hh⟩ := ih (dailyStep dc psh eff inv az tilt day lat s hd) hm
        rw [hl, hh, hstep]
        exact ⟨rfl, rfl⟩
    · have hstep := @dailyStep_of_skip dc psh eff inv az tilt day lat hd hb s
      obtain ⟨hl, hh⟩ := ih (dailyStep dc psh eff inv az tilt day lat s hd) hm
      rw [hl, hh, hstep]
      exact ⟨rfl, rfl⟩

/-- C5. Clipping floor: whenever the inverter cap is at least the pre-clip
maximum instantaneous power reported by the daily simulation, the simulation
reports zero energy lost to clipping and zero fractional clipped hours. -/
theorem no_clipping_when_cap_above_max (dc psh eff inv az tilt day lat : ℝ)
    (h : (calculateDailyEnergyWithClipping dc psh eff inv az tilt
        day lat).maxInstantaneousPower ≤ inv) :
    (calculateDailyEnergyWithClipping dc psh eff inv az tilt
        day lat).energyLostToClipping = 0 ∧
      (calculateDailyEnergyWithClipping dc psh eff inv az tilt
        day lat).hoursClippedPerDay = 0 := by
  unfold calculateDailyEnergyWithClipping at h ⊢
  exact foldl_no_clip_of_maxP_le dc psh eff inv az tilt day lat (List.range 24) _ h

lemma foldl_maxP_zero_capacity (psh eff inv az tilt day lat : ℝ) :
    ∀ (l : List ℕ) (s : DailyProductionResult), s.maxInstantaneousPower = 0 →
      (l.foldl (dailyStep 0 psh eff inv az tilt day lat) s).maxInstantaneousPower = 0 := by
  intro l
  induction l with
  | nil => intro s h; exact h
  | cons hd tl ih =>
    intro s h
    simp only [List.foldl_cons]
    apply ih
    have hp : hourPower 0 psh eff az tilt day lat hd = 0 := by
      unfold hourPower
      ring
    by_cases hb : (0.001 : ℝ) < getHourlyIrradiance hd psh day lat
    · by_cases hc : inv < hourPower 0 psh eff az tilt day lat hd
      · rw [dailyStep_of_clip hb hc]
        dsimp only
        rw [h, hp]
        exact max_self 0
      · rw [dailyStep_of_noclip hb hc]
        dsimp only
        rw [h, hp]
        exact max_self 0
    · rw [dailyStep_of_skip hb]
      exact h

/-- Closed witness for `no_clipping_when_cap_above_max`: with a zero-watt
array the pre-clip maximum power is 0, below the 800 W cap. -/
theorem no_clipping_when_cap_above_max_witness :
    (calculateDailyEnergyWithClipping 0 3 0.8 800 180 30 172 51).energyLostToClipping = 0 ∧
      (calculateDailyEnergyWithClipping 0 3 0.8 800 180 30 172 51).hoursClippedPerDay = 0 := by
  apply no_clipping_when_cap_above_max
  have h := foldl_maxP_zero_capacity 3 0.8 800 180 30 172 51 (List.range 24)
    { totalEnergy := 0, energyLostToClipping := 0, maxInstantaneousPower := 0,
      hoursClippedPerDay := 0 } rfl
  unfold calculateDailyEnergyWithClipping
  rw [h]
  norm_num

lemma generateSolarCurve_getD (day lat : ℝ) (hour : ℕ) :
    (generateSolarCurve day lat).getD hour 0 =
      if hour < 24 then solarCurveEntry day lat hour else 0 := by
  unfold generateSolarCurve
  by_cases h : hour < 24
  · rw [if_pos h]
    rw [List.getD_eq_getElem?_getD, List.getElem?_map, List.getElem?_range h]
    rfl
  · rw [if_neg h]
    rw [List.getD_eq_getElem?_getD, List.getElem?_map]
    have : (List.range 24)[hour]? = none := by
      rw [List.getElem?_eq_none]
      simpa using Nat.le_of_not_lt h
    rw [this]
    rfl

/-- C8. Night has no production: for any hour whose computed sun elevation
is 0 (sun at or below the horizon), the curve entry is 0 and the hourly loop
leaves the accumulator unchanged, regardless of capacity, efficiency, cap
and panel orientation. -/
theorem night_contributes_nothing (hour : ℕ) (day lat : ℝ)
    (h : (calculateSolarPosition hour day lat).elevation = 0)
    (dc psh eff inv az tilt : ℝ) (s : DailyProductionResult) :
    solarCurveEntry day lat hour = 0 ∧
      dailyStep dc psh eff inv az tilt day lat s hour = s := by
  have hentry : solarCurveEntry day lat hour = 0 := by
    simp only [solarCurveEntry]
    rw [h]
    simp
  refine ⟨hentry, ?_⟩
  have hirr : getHourlyIrradiance hour psh day lat = 0 := by
    simp only [getHourlyIrradiance]
    rw [generateSolarCurve_getD]
    by_cases h24 : hour < 24
    · rw [if_pos h24, hentry]
      simp
    · rw [if_neg h24]
      simp
  apply dailyStep_of_skip
  rw [hirr]
  norm_num

lemma getRegionalSolarRegulations_inside {lat lng : ℝ} (h : isLocationInEurope lat lng) :
    getRegionalSolarRegulations lat lng =
      { maxInverterOutputW := some 800
        maxPanelCapacityW := some 2000
        regionName := "Europe (German Regulations)"
        applyGermanRules := True } := by
  unfold getRegionalSolarRegulations
  rw [if_pos h]

lemma getRegionalSolarRegulations_outside {lat lng : ℝ} (h : ¬ isLocationInEurope lat lng) :
    getRegionalSolarRegulations lat lng =
      { maxInverterOutputW := none
        maxPanelCapacityW := none
        regionName := "Outside Europe"
        applyGermanRules := False } := by
  unfold getRegionalSolarRegulations
  rw [if_neg h]

/-- C1. The compliance flag of the engine output: when the resolved
regulation applies the German cap, `isCompliantWithGermanRules` holds
exactly when the array wattage does not exceed the 2000 W panel cap and the
pre-clip maximum instantaneous power of the day-172 simulation does not
exceed the 800 W inverter cap; when no cap applies, the flag is true. -/
theorem compliance_flag_matches_regulation (sd : Option SolarData) (pc : PanelConfig)
    (eff az tilt lat lng : ℝ) :
    (calculateGermanSolarOutput sd pc eff az tilt
        (some { lat := lat, lng := lng })).isCompliantWithGermanRules ↔
      (if (getRegionalSolarRegulations lat lng).applyGermanRules then
        ¬ (2000 : ℝ) < pc.totalWattage ∧
          ¬ (800 : ℝ) < (calculateDailyEnergyWithClipping pc.totalWattage (peakSunHoursOf sd)
            eff 800 az tilt 172 lat).maxInstantaneousPower
      else True) := by
  by_cases hE : isLocationInEurope lat lng
  · simp only [calculateGermanSolarOutput, Option.getD_some,
      getRegionalSolarRegulations_inside hE, maxInverterOutputForCalculation, if_true,
      Option.getD, iff_true, true_and]
  · simp only [calculateGermanSolarOutput, Option.getD_some,
      getRegionalSolarRegulations_outside hE, maxInverterOutputForCalculation, if_false,
      iff_true]

/-- C3 counterexample. An input with negative total wattage (and otherwise
ordinary values, inside Germany) is not rejected: the engine returns a
result rather than a validation failure. -/
theorem negative_wattage_not_rejected :
    (calculatePanelSolarData (some { solarPotential := none })
        { lat := 51, lng := 9 } { totalWattage := -1 } 180 30).isSome = true := rfl

/-- C3 amended. The engine boundary performs no numeric validation at all:
it produces a result exactly when the solar data is present, for every
wattage, tilt, azimuth and latitude, including negative wattage, tilt
outside [0, 90] and latitude outside [-90, 90]. -/
theorem engine_accepts_any_numeric_input (sd : Option SolarData) (loc : Location)
    (pc : PanelConfig) (az tilt : ℝ) :
    (calculatePanelSolarData sd loc pc az tilt).isSome = sd.isSome := by
  cases sd <;> rfl

/-- C9. Outside the Europe bounding box the resolved regulation carries null
caps, yet the engine runs the daily and seasonal simulations with the
synthetic inverter cap `totalWattage * 2` rather than with no cap, so power
above twice the array wattage is still clipped. -/
theorem outside_europe_synthetic_cap (lat lng : ℝ) (h : ¬ isLocationInEurope lat lng)
    (sd : Option SolarData) (pc : PanelConfig) (eff az tilt : ℝ) :
    (getRegionalSolarRegulations lat lng).maxInverterOutputW = none ∧
    (getRegionalSolarRegulations lat lng).maxPanelCapacityW = none ∧
    maxInverterOutputForCalculation (getRegionalSolarRegulations lat lng) pc.totalWattage
      = pc.totalWattage * 2 ∧
    (calculateGermanSolarOutput sd pc eff az tilt
        (some { lat := lat, lng := lng })).dailyEnergyWh
      = jsRound ((calculateDailyEnergyWithClipping pc.totalWattage (peakSunHoursOf sd) eff
          (pc.totalWattage * 2) az tilt 172 lat).totalEnergy) ∧
    (calculateGermanSolarOutput sd pc eff az tilt
        (some { lat := lat, lng := lng })).seasonalData
      = calculateSeasonalVariations pc.totalWattage eff (pc.totalWattage * 2) az tilt sd lat := by
  have hcap : maxInverterOutputForCalculation (getRegionalSolarRegulations lat lng)
      pc.totalWattage = pc.totalWattage * 2 := by
    rw [getRegionalSolarRegulations_outside h]
    simp [maxInverterOutputForCalculation]
  refine ⟨?_, ?_, hcap, ?_, ?_⟩
  · rw [getRegionalSolarRegulations_outside h]
  · rw [getRegionalSolarRegulations_outside h]
  · simp only [calculateGermanSolarOutput, Option.getD_some]
    rw [hcap]
  · simp only [calculateGermanSolarOutput, Option.getD_some]
    rw [hcap]

/-- Closed witness for `outside_europe_synthetic_cap` at a continental US
location. -/
theorem outside_europe_synthetic_cap_witness :
    (getRegionalSolarRegulations 40 (-100)).maxInverterOutputW = none ∧
    (getRegionalSolarRegulations 40 (-100)).maxPanelCapacityW = none ∧
    maxInverterOutputForCalculation (getRegionalSolarRegulations 40 (-100)) (1000 : ℝ)
      = 1000 * 2 ∧
    (calculateGermanSolarOutput none { totalWattage := 1000 } 0.8 180 30
        (some { lat := 40, lng := -100 })).dailyEnergyWh
      = jsRound ((calculateDailyEnergyWithClipping 1000 (peakSunHoursOf none) 0.8
          (1000 * 2) 180 30 172 40).totalEnergy) ∧
    (calculateGermanSolarOutput none { totalWattage := 1000 } 0.8 180 30
        (some { lat := 40, lng := -100 })).seasonalData
      = calculateSeasonalVariations 1000 0.8 (1000 * 2) 180 30 none 40 := by
  have h : ¬ isLocationInEurope (40 : ℝ) (-100) := by
    unfold isLocationInEurope
    push_neg
    intro h1
    norm_num
  exact outside_europe_synthetic_cap 40 (-100) h none { totalWattage := 1000 } 0.8 180 30

lemma elevation_midnight_equator_zero :
    (calculateSolarPosition 0 172 0).elevation = 0 := by
  simp only [calculateSolarPosition]
  set θ : ℝ := 360 * (284 + 172) / 365 * π / 180 with hθ
  set d : ℝ := 23.45 * sin θ * π / 180 with hd
  have hdlo : -(π / 2) ≤ d := by
    rw [hd]
    nlinarith [Real.pi_pos, Real.neg_one_le_sin θ]
  have hdhi : d ≤ π / 2 := by
    rw [hd]
    nlinarith [Real.pi_pos, Real.sin_le_one θ]
  have hcosd : 0 ≤ cos d := Real.cos_nonneg_of_neg_pi_div_two_le_of_le hdlo hdhi
  rw [show (0:ℝ) * π / 180 = 0 from by ring]
  rw [Real.sin_zero, Real.cos_zero]
  rw [show (15:ℝ) * (0 - 12) * π / 180 = -π from by ring]
  rw [Real.cos_neg, Real.cos_pi]
  rw [show (0:ℝ) * sin d + 1 * cos d * (-1) = -cos d from by ring]
  have harc : arcsin (-cos d) ≤ 0 := Real.arcsin_nonpos.mpr (neg_nonpos.mpr hcosd)
  have hquot : arcsin (-cos d) * 180 / π ≤ 0 := by
    apply div_nonpos_of_nonpos_of_nonneg _ Real.pi_pos.le
    nlinarith [harc]
  exact max_eq_left hquot

/-- Closed witness for `night_contributes_nothing`: at the equator on day
172, hour 0 (solar midnight) has elevation 0 and the loop is a no-op. -/
theorem night_contributes_nothing_witness :
    solarCurveEntry 172 0 0 = 0 ∧
      dailyStep 1600 3 0.85 800 180 35 172 0
        { totalEnergy := 5, energyLostToClipping := 0, maxInstantaneousPower := 7,
          hoursClippedPerDay := 0 } 0 =
        { totalEnergy := 5, energyLostToClipping := 0, maxInstantaneousPower := 7,
          hoursClippedPerDay := 0 } := by
  have h : (calculateSolarPosition ((0:ℕ) : ℝ) 172 0).elevation = 0 := by
    simpa using elevation_midnight_equator_zero
  exact night_contributes_nothing 0 172 0 h 1600 3 0.85 800 180 35 _

/-- C7. Range of the atmospheric attenuation: it returns 0 at or below the
horizon, always lies in [0, 1] on the physical elevation domain, and for
positive elevations the normalized horizontal irradiance
`(DNI·sin e + diffuse) / 1000` itself never exceeds 1. -/
theorem attenuation_in_unit_interval (e : ℝ) (h90 : e ≤ 90) :
    (e ≤ 0 → calculateAtmosphericAttenuation e = 0) ∧
    0 ≤ calculateAtmosphericAttenuation e ∧
    calculateAtmosphericAttenuation e ≤ 1 ∧
    (0 < e → atmosphericTotalIrradiance e / 1000 ≤ 1) := by
  by_cases he : e ≤ 0
  · unfold calculateAtmosphericAttenuation
    rw [if_pos he]
    exact ⟨fun _ => rfl, le_rfl, by norm_num, fun hpos => absurd hpos (not_lt.mpr he)⟩
  · push_neg at he
    have hs : 0 < sin (e * π / 180) := by
      apply Real.sin_pos_of_pos_of_lt_pi
      · positivity
      · have : e * π / 180 ≤ 90 * π / 180 := by
          apply div_le_div_of_nonneg_right _ (by norm_num)
          nlinarith [Real.pi_pos]
        nlinarith [Real.pi_pos]
    have hs1 : sin (e * π / 180) ≤ 1 := Real.sin_le_one _
    have hrp : (0:ℝ) < (e + 6.07995) ^ (-1.6364 : ℝ) :=
      Real.rpow_pos_of_pos (by linarith) _
    have hdenom : 0 < sin (e * π / 180) + 0.50572 * (e + 6.07995) ^ (-1.6364 : ℝ) := by
      nlinarith
    have ham : (0:ℝ) < 1 / (sin (e * π / 180) + 0.50572 * (e + 6.07995) ^ (-1.6364 : ℝ)) :=
      one_div_pos.mpr hdenom
    have hamp : (0:ℝ) <
        (1 / (sin (e * π / 180) + 0.50572 * (e + 6.07995) ^ (-1.6364 : ℝ))) ^ (0.678 : ℝ) :=
      Real.rpow_pos_of_pos ham _
    have hexp : exp (-0.357 *
        (1 / (sin (e * π / 180) + 0.50572 * (e + 6.07995) ^ (-1.6364 : ℝ))) ^ (0.678 : ℝ)) < 1 :=
      Real.exp_lt_one_iff.mpr (by nlinarith)
    have hexp0 : 0 < exp (-0.357 *
        (1 / (sin (e * π / 180) + 0.50572 * (e + 6.07995) ^ (-1.6364 : ℝ))) ^ (0.678 : ℝ)) :=
      Real.exp_pos _
    have htot : atmosphericTotalIrradiance e ≤ 1000 := by
      simp only [atmosphericTotalIrradiance]
      nlinarith
    have hdiv : atmosphericTotalIrradiance e / 1000 ≤ 1 := by
      rw [div_le_one (by norm_num : (0:ℝ) < 1000)]
      exact htot
    unfold calculateAtmosphericAttenuation
    rw [if_neg (not_le.mpr he)]
    refine ⟨fun hle => absurd hle (not_le.mpr he), le_max_left _ _, ?_, fun _ => hdiv⟩
    exact max_le (by norm_num) hdiv

/-- Closed witness for `attenuation_in_unit_interval` at 45 degrees of
elevation. -/
theorem attenuation_in_unit_interval_witness :
    ((45:ℝ) ≤ 90) ∧
    (((45:ℝ) ≤ 0 → calculateAtmosphericAttenuation 45 = 0) ∧
      0 ≤ calculateAtmosphericAttenuation 45 ∧
      calculateAtmosphericAttenuation 45 ≤ 1 ∧
      ((0:ℝ) < 45 → atmosphericTotalIrradiance 45 / 1000 ≤ 1)) :=
  ⟨by norm_num, attenuation_in_unit_interval 45 (by norm_num)⟩

/-- C6 counterexample. The combined efficiency factor is not floor-clamped
at 0.3: a panel facing north (azimuth 0) at tilt 90 on the equator scores
`0.4 × (0.85 - 1/6) = 41/150 < 0.3`, and the code applies no floor. -/
theorem efficiency_not_floored_at_point_three :
    calculatePanelEfficiency 0 90 0 < 0.3 := by
  simp only [calculatePanelEfficiency, getLocationInfo]
  norm_num
  rw [abs_of_nonneg Real.pi_pos.le]
  rw [show 2 * π - π = π from by ring, min_self, Real.cos_pi]
  norm_num

/-- C6 amended. For azimuth in [0, 360), tilt in [0, 90] and any latitude,
the combined panel efficiency factor lies in (0, 1] (in fact it is at least
`0.4 × 41/60 = 41/150`); the code contains no 0.3 floor clamp. -/
theorem efficiency_in_unit_interval (az tilt lat : ℝ)
    (h0 : 0 ≤ tilt) (h90 : tilt ≤ 90) :
    0 < calculatePanelEfficiency az tilt lat ∧ calculatePanelEfficiency az tilt lat ≤ 1 := by
  simp only [calculatePanelEfficiency, getLocationInfo]
  generalize hc : cos _ = c
  have hc1 : -1 ≤ c := hc ▸ Real.neg_one_le_cos _
  have hc2 : c ≤ 1 := hc ▸ Real.cos_le_one _
  set o : ℝ := min (max |lat| 10) 60 with ho
  have h10 : 10 ≤ o := le_min (le_max_right _ _) (by norm_num)
  have h60 : o ≤ 60 := min_le_right _ _
  have hop : 0 < o := by linarith
  split_ifs with hb1 hb2
  · have hq0 : 0 ≤ tilt / o := div_nonneg h0 hop.le
    have hq1 : tilt / o ≤ 1 := (div_le_one hop).mpr hb1
    constructor <;> nlinarith
  · push_neg at hb1
    have hq0 : 0 ≤ (tilt - o) / 30 := div_nonneg (by linarith) (by norm_num)
    have hq1 : (tilt - o) / 30 ≤ 1 := by
      rw [div_le_one (by norm_num : (0:ℝ) < 30)]
      linarith
    constructor <;> nlinarith
  · push_neg at hb1 hb2
    have hq0 : 0 ≤ (tilt - o - 30) / 30 := div_nonneg (by linarith) (by norm_num)
    have hq1 : (tilt - o - 30) / 30 ≤ 5 / 3 := by
      rw [div_le_div_iff₀ (by norm_num) (by norm_num)]
      linarith
    constructor <;> nlinarith

/-- Closed witness for `efficiency_in_unit_interval` at a south-facing panel
tilted 30 degrees in Germany. -/
theorem efficiency_in_unit_interval_witness :
    0 < calculatePanelEfficiency 180 30 51 ∧ calculatePanelEfficiency 180 30 51 ≤ 1 :=
  efficiency_in_unit_interval 180 30 51 (by norm_num) (by norm_num)

/-! Concrete evaluation of the day-172 simulation at latitude 90 (North
Pole), where the hour-angle term vanishes (`cos (π/2) = 0`), the elevation
is the solar declination for the whole day, and the attenuation factor
cancels between the curve entries and the curve sum. -/

/-- The day-172 solar declination, in radians. -/
def decl172Rad : ℝ := 23.45 * sin (360 * (284 + 172) / 365 * π / 180) * π / 180

/-- The intra-day variation factor `0.9 + 0.2·sin(hour·π/12)` of the curve. -/
def dayVariation (h : ℕ) : ℝ := 0.9 + 0.2 * sin ((h : ℝ) * π / 12)

/-- Sum of the 24 intra-day variation factors. -/
def S172 : ℝ := ((List.range 24).map dayVariation).sum

/-- The atmospheric attenuation at the constant latitude-90 day-172
elevation. -/
def atten172 : ℝ := calculateAtmosphericAttenuation (decl172Rad * 180 / π)

lemma decl172Rad_pos : 0 < decl172Rad := by
  unfold decl172Rad
  rw [show (360 * (284 + 172) / 365 : ℝ) * π / 180 = 182 * π / 365 + 2 * π from by ring,
    Real.sin_add_two_pi]
  have hq : 0 < sin (182 * π / 365) := by
    apply Real.sin_pos_of_pos_of_lt_pi
    · positivity
    · nlinarith [Real.pi_pos]
  have h1 : (0:ℝ) < 23.45 * sin (182 * π / 365) * π :=
    mul_pos (mul_pos (by norm_num) hq) Real.pi_pos
  linarith

lemma decl172Rad_lt : decl172Rad < 0.41 := by
  unfold decl172Rad
  have h1 : sin (360 * (284 + 172) / 365 * π / 180) ≤ 1 :=
    Real.sin_le_one _
  have h2 : π < 3.1416 := Real.pi_lt_d4
  have h3 : 0 < π := Real.pi_pos
  nlinarith

lemma decl172Rad_le_half_pi : decl172Rad ≤ π / 2 := by
  have h1 := decl172Rad_lt
  have h2 := Real.pi_gt_three
  linarith

lemma sin_decl172_pos : 0 < sin decl172Rad := by
  apply Real.sin_pos_of_pos_of_lt_pi decl172Rad_pos
  have := Real.pi_pos
  linarith [decl172Rad_le_half_pi]

lemma sin_decl172_lt : sin decl172Rad < 0.41 :=
  lt_trans (Real.sin_lt decl172Rad_pos) decl172Rad_lt

lemma elevationDeg_pos : 0 < decl172Rad * 180 / π :=
  div_pos (mul_pos decl172Rad_pos (by norm_num)) Real.pi_pos

lemma elevationDeg_le90 : decl172Rad * 180 / π ≤ 90 := by
  rw [div_le_iff₀ Real.pi_pos]
  nlinarith [decl172Rad_le_half_pi, Real.pi_pos]

lemma elevRad_eq : decl172Rad * 180 / π * π / 180 = decl172Rad := by
  have hπ := Real.pi_ne_zero
  field_simp

lemma solarPosition_lat90_elevation (h : ℝ) :
    (calculateSolarPosition h 172 90).elevation = decl172Rad * 180 / π := by
  simp only [calculateSolarPosition]
  rw [show (90:ℝ) * π / 180 = π / 2 from by ring]
  rw [Real.sin_pi_div_two, Real.cos_pi_div_two]
  rw [show ∀ a b : ℝ, 1 * sin a + 0 * cos a * cos b = sin a from fun a b => by ring]
  rw [show (23.45 * sin (360 * (284 + 172) / 365 * π / 180) * π / 180 : ℝ) = decl172Rad from rfl]
  rw [Real.arcsin_sin (by linarith [decl172Rad_pos, Real.pi_pos]) decl172Rad_le_half_pi]
  exact max_eq_right (le_of_lt elevationDeg_pos)

lemma atten_pos_le_sin (e : ℝ) (he : 0 < e) (h90 : e ≤ 90) :
    0 < calculateAtmosphericAttenuation e ∧
      calculateAtmosphericAttenuation e ≤ sin (e * π / 180) := by
  have hs : 0 < sin (e * π / 180) := by
    apply Real.sin_pos_of_pos_of_lt_pi
    · positivity
    · nlinarith [Real.pi_pos]
  have hs1 : sin (e * π / 180) ≤ 1 := Real.sin_le_one _
  have hrp : (0:ℝ) < (e + 6.07995) ^ (-1.6364 : ℝ) :=
    Real.rpow_pos_of_pos (by linarith) _
  have hdenom : 0 < sin (e * π / 180) + 0.50572 * (e + 6.07995) ^ (-1.6364 : ℝ) := by
    nlinarith
  have ham : (0:ℝ) < 1 / (sin (e * π / 180) + 0.50572 * (e + 6.07995) ^ (-1.6364 : ℝ)) :=
    one_div_pos.mpr hdenom
  have hamp : (0:ℝ) <
      (1 / (sin (e * π / 180) + 0.50572 * (e + 6.07995) ^ (-1.6364 : ℝ))) ^ (0.678 : ℝ) :=
    Real.rpow_pos_of_pos ham _
  have hexp : exp (-0.357 *
      (1 / (sin (e * π / 180) + 0.50572 * (e + 6.07995) ^ (-1.6364 : ℝ))) ^ (0.678 : ℝ)) < 1 :=
    Real.exp_lt_one_iff.mpr (by nlinarith)
  have hexp0 : 0 < exp (-0.357 *
      (1 / (sin (e * π / 180) + 0.50572 * (e + 6.07995) ^ (-1.6364 : ℝ))) ^ (0.678 : ℝ)) :=
    Real.exp_pos _
  have hT0 : 0 < atmosphericTotalIrradiance e := by
    simp only [atmosphericTotalIrradiance]
    nlinarith
  have hTle : atmosphericTotalIrradiance e ≤ 1000 * sin (e * π / 180) := by
    simp only [atmosphericTotalIrradiance]
    nlinarith
  unfold calculateAtmosphericAttenuation
  rw [if_neg (not_le.mpr he)]
  constructor
  · exact lt_of_lt_of_le (div_pos hT0 (by norm_num)) (le_max_right _ _)
  · apply max_le (le_of_lt hs)
    rw [div_le_iff₀ (by norm_num : (0:ℝ) < 1000)]
    nlinarith

lemma atten172_bounds : 0 < atten172 ∧ atten172 ≤ sin decl172Rad := by
  have h := atten_pos_le_sin (decl172Rad * 180 / π) elevationDeg_pos elevationDeg_le90
  rw [elevRad_eq] at h
  exact h

lemma weather_172_90 : getLocationWeatherFactor 172 90 = 0.385 := by
  simp only [getLocationWeatherFactor, getLocationInfo]
  have hfl : ⌊((172:ℝ) - 1) / 30.4⌋ = 5 := by
    rw [Int.floor_eq_iff]
    constructor <;> norm_num
  norm_num [hfl, abs_of_nonneg, min_def, max_def]

lemma dayVariation_bounds (h : ℕ) : 0.7 ≤ dayVariation h ∧ dayVariation h ≤ 1.1 := by
  unfold dayVariation
  constructor <;>
    nlinarith [Real.neg_one_le_sin ((h:ℝ) * π / 12), Real.sin_le_one ((h:ℝ) * π / 12)]

lemma list_sum_bounds {f : ℕ → ℝ} {a b : ℝ} :
    ∀ l : List ℕ, (∀ x ∈ l, a ≤ f x ∧ f x ≤ b) →
      (l.length : ℝ) * a ≤ (l.map f).sum ∧ (l.map f).sum ≤ (l.length : ℝ) * b := by
  intro l
  induction l with
  | nil => intro _; simp
  | cons hd tl ih =>
    intro hmem
    obtain ⟨h1, h2⟩ := hmem hd (List.mem_cons_self _ _)
    obtain ⟨h3, h4⟩ := ih (fun x hx => hmem x (List.mem_cons_of_mem _ hx))
    simp only [List.map_cons, List.sum_cons, List.length_cons]
    push_cast
    constructor <;> linarith

lemma S172_bounds : 16.8 ≤ S172 ∧ S172 ≤ 26.4 := by
  unfold S172
  have h := list_sum_bounds (List.range 24) (fun x _ => dayVariation_bounds x)
  simp only [List.length_range] at h
  exact ⟨by linarith [h.1], by linarith [h.2]⟩

lemma S172_pos : 0 < S172 := lt_of_lt_of_le (by norm_num) S172_bounds.1

lemma curveEntry_lat90 (h : ℕ) :
    solarCurveEntry 172 90 h = atten172 * 0.385 * dayVariation h := by
  simp only [solarCurveEntry]
  rw [solarPosition_lat90_elevation]
  rw [if_pos elevationDeg_pos]
  rw [weather_172_90]
  rw [show calculateAtmosphericAttenuation (decl172Rad * 180 / π) = atten172 from rfl]
  obtain ⟨hA0, hA1⟩ := atten172_bounds
  obtain ⟨hv0, hv1⟩ := dayVariation_bounds h
  have hs41 := sin_decl172_lt
  have hle : atten172 * 0.385 * (0.9 + 0.2 * sin ((h:ℝ) * π / 12)) ≤ 1 := by
    unfold dayVariation at hv0 hv1
    nlinarith
  have hge : 0 ≤ atten172 * 0.385 * (0.9 + 0.2 * sin ((h:ℝ) * π / 12)) := by
    unfold dayVariation at hv0 hv1
    nlinarith
  rw [min_eq_right hle, max_eq_right hge]
  rfl

lemma curve_sum_lat90 : (generateSolarCurve 172 90).sum = atten172 * 0.385 * S172 := by
  unfold generateSolarCurve
  have hmap : (List.range 24).map (solarCurveEntry 172 90) =
      (List.range 24).map (fun x => atten172 * 0.385 * dayVariation x) :=
    List.map_congr_left (fun x _ => curveEntry_lat90 x)
  rw [hmap, List.sum_map_mul_left]
  rfl

lemma irr_lat90 {psh : ℝ} (hpsh : 0 < psh) (h : ℕ) (hh : h < 24) :
    getHourlyIrradiance h psh 172 90 = psh * dayVariation h / S172 := by
  simp only [getHourlyIrradiance]
  rw [generateSolarCurve_getD, if_pos hh, curveEntry_lat90, curve_sum_lat90]
  have hA := atten172_bounds.1
  have hS := S172_pos
  have hAne : atten172 ≠ 0 := ne_of_gt hA
  have hSne : S172 ≠ 0 := ne_of_gt hS
  have htot : 0 < atten172 * 0.385 * S172 := by nlinarith
  rw [if_pos htot]
  obtain ⟨hv0, hv1⟩ := dayVariation_bounds h
  have hval : 0 ≤ psh * dayVariation h / S172 :=
    div_nonneg (by nlinarith) hS.le
  rw [show atten172 * 0.385 * dayVariation h * (psh / (atten172 * 0.385 * S172)) =
      psh * dayVariation h / S172 from by field_simp; ring]
  exact max_eq_right hval

lemma orient_lat90 (h : ℝ) :
    calculatePanelOrientationFactor (calculateSolarPosition h 172 90).elevation
      (calculateSolarPosition h 172 90).azimuth 0 180 = sin decl172Rad := by
  rw [solarPosition_lat90_elevation]
  simp only [calculatePanelOrientationFactor]
  rw [if_neg (not_le.mpr elevationDeg_pos)]
  rw [show (0:ℝ) * π / 180 = 0 from by ring]
  rw [Real.sin_zero, Real.cos_zero]
  simp only [zero_mul, mul_zero, zero_add, add_zero, mul_one]
  rw [elevRad_eq]
  exact max_eq_right (le_of_lt sin_decl172_pos)

lemma hourPower_c2 (h : ℕ) (hh : h < 24) :
    hourPower 1 (1100/365) 1 180 0 172 90 h =
      1100 / 365 * sin decl172Rad / S172 * dayVariation h := by
  simp only [hourPower]
  rw [irr_lat90 (by norm_num) h hh, orient_lat90]
  have hSne : S172 ≠ 0 := ne_of_gt S172_pos
  field_simp
  ring

lemma base_irr_c2 (h : ℕ) (hh : h < 24) :
    (0.001:ℝ) < getHourlyIrradiance h (1100/365) 172 90 := by
  rw [irr_lat90 (by norm_num) h hh]
  obtain ⟨hv0, hv1⟩ := dayVariation_bounds h
  obtain ⟨hS1, hS2⟩ := S172_bounds
  rw [lt_div_iff₀ S172_pos]
  nlinarith

lemma no_clip_c2 (h : ℕ) (hh : h < 24) :
    ¬ (2:ℝ) < hourPower 1 (1100/365) 1 180 0 172 90 h := by
  rw [hourPower_c2 h hh]
  push_neg
  obtain ⟨hv0, hv1⟩ := dayVariation_bounds h
  obtain ⟨hS1, hS2⟩ := S172_bounds
  have hs0 := sin_decl172_pos
  have hs1 := sin_decl172_lt
  rw [div_mul_eq_mul_div, div_le_iff₀ S172_pos]
  nlinarith

lemma step_c2 (h : ℕ) (hh : h < 24) (s : DailyProductionResult) :
    dailyStep 1 (1100/365) 1 2 180 0 172 90 s h =
      { totalEnergy := s.totalEnergy + 1100 / 365 * sin decl172Rad / S172 * dayVariation h
        energyLostToClipping := s.energyLostToClipping
        maxInstantaneousPower := max s.maxInstantaneousPower
          (1100 / 365 * sin decl172Rad / S172 * dayVariation h)
        hoursClippedPerDay := s.hoursClippedPerDay } := by
  rw [dailyStep_of_noclip (base_irr_c2 h hh) (no_clip_c2 h hh)]
  rw [hourPower_c2 h hh]

lemma foldl_sum_shape (p : ℕ → ℝ) (step : DailyProductionResult → ℕ → DailyProductionResult) :
    ∀ l : List ℕ,
      (∀ (s : DailyProductionResult) (h : ℕ), h ∈ l → step s h =
        { totalEnergy := s.totalEnergy + p h
          energyLostToClipping := s.energyLostToClipping
          maxInstantaneousPower := max s.maxInstantaneousPower (p h)
          hoursClippedPerDay := s.hoursClippedPerDay }) →
      ∀ s : DailyProductionResult,
        (l.foldl step s).totalEnergy = s.totalEnergy + (l.map p).sum := by
  intro l
  induction l with
  | nil => intro _ s; simp
  | cons hd tl ih =>
    intro hstep s
    simp only [List.foldl_cons, List.map_cons, List.sum_cons]
    rw [ih (fun s h hm => hstep s h (List.mem_cons_of_mem _ hm)) (step s hd),
      hstep s hd (List.mem_cons_self _ _)]
    dsimp only
    ring

lemma totalEnergy_c2 :
    (calculateDailyEnergyWithClipping 1 (1100/365) 1 2 180 0 172 90).totalEnergy
      = 1100 / 365 * sin decl172Rad := by
  unfold calculateDailyEnergyWithClipping
  have h := foldl_sum_shape (fun h => 1100 / 365 * sin decl172Rad / S172 * dayVariation h)
    (dailyStep 1 (1100/365) 1 2 180 0 172 90) (List.range 24)
    (fun s h hm => step_c2 h (List.mem_range.mp hm) s)
    { totalEnergy := 0, energyLostToClipping := 0, maxInstantaneousPower := 0,
      hoursClippedPerDay := 0 }
  rw [h, List.sum_map_mul_left]
  rw [show ((List.range 24).map dayVariation).sum = S172 from rfl]
  have hSne : S172 ≠ 0 := ne_of_gt S172_pos
  field_simp
  ring

lemma annualEnergyProduction_eq (sd : Option SolarData) (pc : PanelConfig)
    (eff az tilt lat lng : ℝ) :
    (calculateGermanSolarOutput sd pc eff az tilt
        (some { lat := lat, lng := lng })).annualEnergyProduction
      = jsRound ((calculateDailyEnergyWithClipping pc.totalWattage (peakSunHoursOf sd) eff
          (maxInverterOutputForCalculation (getRegionalSolarRegulations lat lng)
            pc.totalWattage) az tilt 172 lat).totalEnergy * 365 / 1000) := by
  simp only [calculateGermanSolarOutput, Option.getD_some]

/-- C2 counterexample. At the North Pole with a 1 W array, unit efficiency,
flat panel and absent solar data, all 24 hours produce without clipping and
the day-172 total is `(1100/365)·sin(declination)` Wh, so the exact annual
figure is `1.1·sin(declination)` kWh, about 0.44; the output field is
`Math.round` of that, 0, which differs from the exact value. -/
theorem annual_not_exact_times365 :
    (calculateGermanSolarOutput none { totalWattage := 1 } 1 180 0
        (some { lat := 90, lng := 0 })).annualEnergyProduction ≠
      (calculateDailyEnergyWithClipping 1 (peakSunHoursOf none) 1
        (maxInverterOutputForCalculation (getRegionalSolarRegulations 90 0) 1)
        180 0 172 90).totalEnergy * 365 / 1000 := by
  have hout : ¬ isLocationInEurope (90:ℝ) 0 := by
    unfold isLocationInEurope
    push_neg
    intro h1
    exfalso
    exact absurd h1.2 (by norm_num)
  have hcap : maxInverterOutputForCalculation (getRegionalSolarRegulations 90 0) (1:ℝ) = 2 := by
    rw [getRegionalSolarRegulations_outside hout]
    simp only [maxInverterOutputForCalculation]
    norm_num
  have hpsh : peakSunHoursOf none = 1100/365 := rfl
  rw [annualEnergyProduction_eq none { totalWattage := 1 } 1 180 0 90 0]
  dsimp only
  rw [hcap, hpsh, totalEnergy_c2]
  rw [show 1100 / 365 * sin decl172Rad * 365 / 1000 = 1.1 * sin decl172Rad from by ring]
  have h0 : (0:ℝ) < 1.1 * sin decl172Rad := by nlinarith [sin_decl172_pos]
  have h1 : 1.1 * sin decl172Rad < 1/2 := by nlinarith [sin_decl172_lt, sin_decl172_pos]
  have hjz : jsRound (1.1 * sin decl172Rad) = 0 := by
    unfold jsRound
    rw [show ⌊1.1 * sin decl172Rad + 1/2⌋ = 0 from
      Int.floor_eq_zero_iff.mpr ⟨by linarith, by linarith⟩]
    exact Int.cast_zero
  rw [hjz]
  exact ne_of_lt h0

/-- C2 amended. The annual energy figure of the engine output equals
`Math.round` of the day-172 daily simulation total times 365 divided by
1000, i.e. the exact product is rounded to an integer number of kWh before
being returned. -/
theorem annual_energy_is_rounded_times365 (sd : Option SolarData) (pc : PanelConfig)
    (eff az tilt lat lng : ℝ) :
    (calculateGermanSolarOutput sd pc eff az tilt
        (some { lat := lat, lng := lng })).annualEnergyProduction
      = jsRound ((calculateDailyEnergyWithClipping pc.totalWattage (peakSunHoursOf sd) eff
          (maxInverterOutputForCalculation (getRegionalSolarRegulations lat lng)
            pc.totalWattage) az tilt 172 lat).totalEnergy * 365 / 1000) :=
  annualEnergyProduction_eq sd pc eff az tilt lat lng

lemma hourPower_c2_pos (h : ℕ) (hh : h < 24) :
    0 < hourPower 1 (1100/365) 1 180 0 172 90 h := by
  rw [hourPower_c2 h hh]
  obtain ⟨hv0, hv1⟩ := dayVariation_bounds h
  exact mul_pos (div_pos (mul_pos (by norm_num) sin_decl172_pos) S172_pos) (by linarith)

lemma foldl_totalEnergy_const_add (c : ℝ)
    (step : DailyProductionResult → ℕ → DailyProductionResult) :
    ∀ l : List ℕ,
      (∀ (s : DailyProductionResult) (h : ℕ), h ∈ l →
        (step s h).totalEnergy = s.totalEnergy + c) →
      ∀ s : DailyProductionResult,
        (l.foldl step s).totalEnergy = s.totalEnergy + l.length * c := by
  intro l
  induction l with
  | nil => intro _ s; simp
  | cons hd tl ih =>
    intro hstep s
    simp only [List.foldl_cons, List.length_cons]
    rw [ih (fun s h hm => hstep s h (List.mem_cons_of_mem _ hm)) (step s hd),
      hstep s hd (List.mem_cons_self _ _)]
    push_cast
    ring

/-- C10 counterexample. The shape invariants fail for a negative inverter
cap even with non-negative capacity (1 W) and efficiency in [0,1] (here 1):
at latitude 90 on day 172 every one of the 24 hours is processed and its
positive power exceeds the cap -1, so each hour clips to -1 and the
simulation returns `totalEnergy = -24`, violating `0 ≤ totalEnergy`. -/
theorem daily_result_invariants_fail_negative_cap :
    (calculateDailyEnergyWithClipping 1 (1100/365) 1 (-1) 180 0 172 90).totalEnergy = -24 ∧
      ¬ 0 ≤ (calculateDailyEnergyWithClipping 1 (1100/365) 1 (-1) 180 0 172 90).totalEnergy := by
  have hstep : ∀ (s : DailyProductionResult) (h : ℕ), h ∈ List.range 24 →
      (dailyStep 1 (1100/365) 1 (-1) 180 0 172 90 s h).totalEnergy = s.totalEnergy + (-1) := by
    intro s h hm
    have hh := List.mem_range.mp hm
    have hc : (-1 : ℝ) < hourPower 1 (1100/365) 1 180 0 172 90 h :=
      lt_trans (by norm_num) (hourPower_c2_pos h hh)
    rw [dailyStep_of_clip (base_irr_c2 h hh) hc]
  have htot : (calculateDailyEnergyWithClipping 1 (1100/365) 1 (-1) 180 0
      172 90).totalEnergy = -24 := by
    unfold calculateDailyEnergyWithClipping
    rw [foldl_totalEnergy_const_add (-1) (dailyStep 1 (1100/365) 1 (-1) 180 0 172 90)
      (List.range 24) hstep
      { totalEnergy := 0, energyLostToClipping := 0, maxInstantaneousPower := 0,
        hoursClippedPerDay := 0 }]
    simp only [List.length_range]
    norm_num
  exact ⟨htot, by rw [htot]; norm_num⟩

end

end SolarCalc
